import Mathlib

/-!
Verification development for the signal-relay module (`src/signals.rs`) of
the railcar process supervisor.

The pure part (the `SIGNALS` catalog and `to_signal`) is embedded directly
as Lean functions.  The effectful part (`pass_signals`, `set_handler`,
`child_handler`, `signal_children`, `raise_for_parent`, `wait_for_signal`)
is embedded by explicit state passing: each operation produces a `Run`,
a result (`Except String _`, mirroring the Rust `Result` with the
`chain_err` message) together with the ordered trace of OS-level calls
it performed.  Whether the n-th OS call of a run succeeds is decided by
an oracle `Nat → Bool` supplied to the operation; the Rust `?` operator
is modelled by short-circuiting: once a step fails, no further call is
made.  Raw `nix` errors that carry no custom message in the source are
abstracted as fixed message strings; no claim depends on their text.
-/

/-- Canonical signals, exactly the variants used by the catalog in
`src/signals.rs` on Linux (non-mips), in Linux x86-64 numbering order. -/
inductive Signal where
  | SIGHUP
  | SIGINT
  | SIGQUIT
  | SIGILL
  | SIGTRAP
  | SIGABRT
  | SIGBUS
  | SIGFPE
  | SIGKILL
  | SIGUSR1
  | SIGSEGV
  | SIGUSR2
  | SIGPIPE
  | SIGALRM
  | SIGTERM
  | SIGSTKFLT
  | SIGCHLD
  | SIGCONT
  | SIGSTOP
  | SIGTSTP
  | SIGTTIN
  | SIGTTOU
  | SIGURG
  | SIGXCPU
  | SIGXFSZ
  | SIGVTALRM
  | SIGPROF
  | SIGWINCH
  | SIGIO
  | SIGPWR
  | SIGSYS
  deriving DecidableEq

/-- All canonical signals, in numbering order (the domain of `from_c_int`). -/
def allSignals : List Signal :=
  [ Signal.SIGHUP, Signal.SIGINT, Signal.SIGQUIT, Signal.SIGILL,
    Signal.SIGTRAP, Signal.SIGABRT, Signal.SIGBUS, Signal.SIGFPE,
    Signal.SIGKILL, Signal.SIGUSR1, Signal.SIGSEGV, Signal.SIGUSR2,
    Signal.SIGPIPE, Signal.SIGALRM, Signal.SIGTERM, Signal.SIGSTKFLT,
    Signal.SIGCHLD, Signal.SIGCONT, Signal.SIGSTOP, Signal.SIGTSTP,
    Signal.SIGTTIN, Signal.SIGTTOU, Signal.SIGURG, Signal.SIGXCPU,
    Signal.SIGXFSZ, Signal.SIGVTALRM, Signal.SIGPROF, Signal.SIGWINCH,
    Signal.SIGIO, Signal.SIGPWR, Signal.SIGSYS ]

/-- Linux x86-64 signal number of each canonical signal (`c_int` value). -/
def Signal.toCInt : Signal → Int
  | Signal.SIGHUP => 1
  | Signal.SIGINT => 2
  | Signal.SIGQUIT => 3
  | Signal.SIGILL => 4
  | Signal.SIGTRAP => 5
  | Signal.SIGABRT => 6
  | Signal.SIGBUS => 7
  | Signal.SIGFPE => 8
  | Signal.SIGKILL => 9
  | Signal.SIGUSR1 => 10
  | Signal.SIGSEGV => 11
  | Signal.SIGUSR2 => 12
  | Signal.SIGPIPE => 13
  | Signal.SIGALRM => 14
  | Signal.SIGTERM => 15
  | Signal.SIGSTKFLT => 16
  | Signal.SIGCHLD => 17
  | Signal.SIGCONT => 18
  | Signal.SIGSTOP => 19
  | Signal.SIGTSTP => 20
  | Signal.SIGTTIN => 21
  | Signal.SIGTTOU => 22
  | Signal.SIGURG => 23
  | Signal.SIGXCPU => 24
  | Signal.SIGXFSZ => 25
  | Signal.SIGVTALRM => 26
  | Signal.SIGPROF => 27
  | Signal.SIGWINCH => 28
  | Signal.SIGIO => 29
  | Signal.SIGPWR => 30
  | Signal.SIGSYS => 31

/-- Debug-format name of a signal (the Rust `{:?}` rendering of
`nix::sys::signal::Signal`), used in the `raise_for_parent` error text. -/
def signalName : Signal → String
  | Signal.SIGHUP => "SIGHUP"
  | Signal.SIGINT => "SIGINT"
  | Signal.SIGQUIT => "SIGQUIT"
  | Signal.SIGILL => "SIGILL"
  | Signal.SIGTRAP => "SIGTRAP"
  | Signal.SIGABRT => "SIGABRT"
  | Signal.SIGBUS => "SIGBUS"
  | Signal.SIGFPE => "SIGFPE"
  | Signal.SIGKILL => "SIGKILL"
  | Signal.SIGUSR1 => "SIGUSR1"
  | Signal.SIGSEGV => "SIGSEGV"
  | Signal.SIGUSR2 => "SIGUSR2"
  | Signal.SIGPIPE => "SIGPIPE"
  | Signal.SIGALRM => "SIGALRM"
  | Signal.SIGTERM => "SIGTERM"
  | Signal.SIGSTKFLT => "SIGSTKFLT"
  | Signal.SIGCHLD => "SIGCHLD"
  | Signal.SIGCONT => "SIGCONT"
  | Signal.SIGSTOP => "SIGSTOP"
  | Signal.SIGTSTP => "SIGTSTP"
  | Signal.SIGTTIN => "SIGTTIN"
  | Signal.SIGTTOU => "SIGTTOU"
  | Signal.SIGURG => "SIGURG"
  | Signal.SIGXCPU => "SIGXCPU"
  | Signal.SIGXFSZ => "SIGXFSZ"
  | Signal.SIGVTALRM => "SIGVTALRM"
  | Signal.SIGPROF => "SIGPROF"
  | Signal.SIGWINCH => "SIGWINCH"
  | Signal.SIGIO => "SIGIO"
  | Signal.SIGPWR => "SIGPWR"
  | Signal.SIGSYS => "SIGSYS"

/-- Conversion of a raw `c_int` signal number to a canonical signal
(`nix::sys::signal::Signal::from_c_int`): defined exactly on the valid
signal numbers 1..=31, as used with `.unwrap()` in `child_handler`. -/
def Signal.from_c_int (signum : Int) : Option Signal :=
  allSignals.find? (fun s => Signal.toCInt s == signum)

/-- Signal set (`nix::sys::signal::SigSet`), by its member list. -/
abbrev SigSet := List Signal

/-- SigSet::empty(). -/
def SigSet.empty : SigSet := []

/-- SigSet::all(): contains every signal. -/
def SigSet.all : SigSet := allSignals

/-- SigSet::add (sigaddset): set-like insertion. -/
def SigSet.add (s : SigSet) (x : Signal) : SigSet :=
  if x ∈ s then s else s ++ [x]

/-- Boolean membership in a signal set. -/
def SigSet.has (s : SigSet) (x : Signal) : Bool := decide (x ∈ s)

/-- Flags of a `sigaction` (`nix::sys::signal::SaFlags`).  `SA_RESTART`
is the flag that would auto-restart interrupted syscalls. -/
inductive SaFlag where
  | SA_NOCLDSTOP
  | SA_NOCLDWAIT
  | SA_NODEFER
  | SA_ONSTACK
  | SA_RESETHAND
  | SA_RESTART
  | SA_SIGINFO
  deriving DecidableEq

/-- Handler functions defined by the module; `child_handler` is the only
one (the relay handler installed by `pass_signals`). -/
inductive HandlerFn where
  | child_handler
  deriving DecidableEq

/-- Disposition (`nix::sys::signal::SigHandler`): default, ignore, or a
custom handler function. -/
inductive SigHandler where
  | SigDfl
  | SigIgn
  | Handler (f : HandlerFn)
  deriving DecidableEq

/-- A `sigaction` argument (`nix::sys::signal::SigAction`): a handler,
flags (`SaFlags::empty()` means no flag set, so no auto-restart), and the
mask of signals blocked while the handler runs. -/
structure SigAction where
  handler : SigHandler
  flags : List SaFlag
  mask : SigSet
  deriving DecidableEq

/-- SigAction::new, mirroring the source constructor. -/
def SigAction.new (handler : SigHandler) (flags : List SaFlag) (mask : SigSet) : SigAction :=
  ⟨handler, flags, mask⟩

/-- OS-visible actions performed by the module, recorded in order. -/
inductive Event where
  | setChildPid (pid : Int)
  | sigactionCall (signal : Signal) (action : SigAction)
  | killCall (pid : Int) (signal : Option Signal)
  | threadBlock (set : SigSet)
  | threadUnblock (set : SigSet)
  | raiseCall (signal : Signal)
  | sigwait (set : SigSet)
  deriving DecidableEq

deriving instance DecidableEq for Except

/-- Outcome of running an operation: the returned `Result` (as
`Except String`, the string being the surfaced error message) and the
ordered trace of OS calls it made. -/
structure Run (α : Type) where
  result : Except String α
  trace : List Event
  deriving DecidableEq

/-- One fallible OS call in sequence: if the run has already failed
(the Rust `?` operator has returned), nothing happens; otherwise the
call is attempted (the event is appended) and the oracle decides,
by the call's position, whether it succeeds or fails with `msg`. -/
def osStep (o : Nat → Bool) (r : Run Unit) (e : Event) (msg : String) : Run Unit :=
  match r.result with
  | Except.error _ => r
  | Except.ok _ =>
      { result := if o r.trace.length then Except.ok () else Except.error msg,
        trace := r.trace ++ [e] }

/-- A sequence of fallible OS calls, each with its error message,
executed left to right with `?`-style short-circuiting. -/
def runSteps (o : Nat → Bool) (r : Run Unit) : List (Event × String) → Run Unit
  | [] => r
  | s :: rest => runSteps o (osStep o r s.1 s.2) rest

/-- Oracle under which every OS call succeeds. -/
def allOk : Nat → Bool := fun _ => true

/-- Oracle under which exactly the k-th OS call fails. -/
def failAt (k : Nat) : Nat → Bool := fun i => decide (i ≠ k)

/-- Value of a decimal digit string. -/
def digitsVal (cs : List Char) : Nat :=
  cs.foldl (fun a c => a * 10 + (c.toNat - 48)) 0

/-- Largest value of a `usize` on the 64-bit targets railcar builds for. -/
def USIZE_MAX : Nat := 2 ^ 64 - 1

/-- Rust `str::parse::<usize>()`: an optional leading plus sign, then at
least one ASCII digit and nothing else, with the value fitting in
`usize`; anything else fails to parse. -/
def parse_usize (s : String) : Option Nat :=
  let cs := s.data
  let ds := match cs with
            | '+' :: rest => rest
            | _ => cs
  if ds ≠ [] ∧ ds.all Char.isDigit then
    let v := digitsVal ds
    if v ≤ USIZE_MAX then some v else none
  else none

/-- The signal catalog `SIGNALS` from `src/signals.rs` (Linux, non-mips,
so the `STKFLT` entry is present): accepted name strings paired with the
canonical signal, in the source's entry order. -/
def SIGNALS : List (List String × Signal) :=
  [ ( [ "HUP", "SIGHUP" ], Signal.SIGHUP ),
    ( [ "INT", "SIGINT" ], Signal.SIGINT ),
    ( [ "QUIT", "SIGQUIT" ], Signal.SIGQUIT ),
    ( [ "ILL", "SIGILL" ], Signal.SIGILL ),
    ( [ "BUS", "SIGBUS" ], Signal.SIGBUS ),
    ( [ "ABRT", "IOT", "SIGABRT", "SIGIOT" ], Signal.SIGABRT ),
    ( [ "TRAP", "SIGTRAP" ], Signal.SIGTRAP ),
    ( [ "FPE", "SIGFPE" ], Signal.SIGFPE ),
    ( [ "KILL", "SIGKILL" ], Signal.SIGKILL ),
    ( [ "USR1", "SIGUSR1" ], Signal.SIGUSR1 ),
    ( [ "SEGV", "SIGSEGV" ], Signal.SIGSEGV ),
    ( [ "USR2", "SIGUSR2" ], Signal.SIGUSR2 ),
    ( [ "PIPE", "SIGPIPE" ], Signal.SIGPIPE ),
    ( [ "ALRM", "SIGALRM" ], Signal.SIGALRM ),
    ( [ "TERM", "SIGTERM" ], Signal.SIGTERM ),
    ( [ "STKFLT", "SIGSTKFLT" ], Signal.SIGSTKFLT ),
    ( [ "CHLD", "SIGCHLD" ], Signal.SIGCHLD ),
    ( [ "CONT", "SIGCONT" ], Signal.SIGCONT ),
    ( [ "STOP", "SIGSTOP" ], Signal.SIGSTOP ),
    ( [ "TSTP", "SIGTSTP" ], Signal.SIGTSTP ),
    ( [ "TTIN", "SIGTTIN" ], Signal.SIGTTIN ),
    ( [ "TTOU", "SIGTTOU" ], Signal.SIGTTOU ),
    ( [ "URG", "SIGURG" ], Signal.SIGURG ),
    ( [ "XCPU", "SIGXCPU" ], Signal.SIGXCPU ),
    ( [ "XFSZ", "SIGXFSZ" ], Signal.SIGXFSZ ),
    ( [ "VTALRM", "SIGVTALRM" ], Signal.SIGVTALRM ),
    ( [ "PROF", "SIGPROF" ], Signal.SIGPROF ),
    ( [ "WINCH", "SIGWINCH" ], Signal.SIGWINCH ),
    ( [ "IO", "SIGIO" ], Signal.SIGIO ),
    ( [ "PWR", "SIGPWR" ], Signal.SIGPWR ),
    ( [ "SYS", "SIGSYS" ], Signal.SIGSYS ) ]

/-- The scan loop of `to_signal`: at entry index `i`, return the entry's
signal if the token is one of its accepted names or `i + 1` equals the
parsed number, else continue; falling off the end produces the
`bail!`-formatted error. -/
def toSignalGo (tok : String) (num : Nat) : Nat → List (List String × Signal) → Except String Signal
  | _, [] => Except.error (tok ++ " is not a valid signal")
  | i, p :: rest =>
      if tok ∈ p.1 ∨ i + 1 = num then Except.ok p.2
      else toSignalGo tok num (i + 1) rest

/-- `to_signal` from `src/signals.rs`: parse the token as `usize` (using
`SIGNALS.len() + 1`, which matches no entry, when parsing fails), then
scan the catalog for a name match or a 1-based index match. -/
def to_signal (signal : String) : Except String Signal :=
  let signal_num := match parse_usize signal with
                    | some num => num
                    | none => SIGNALS.length + 1
  toSignalGo signal signal_num 0 SIGNALS

/-- Process-wide relay state: the `CHILD_PID` static written by
`pass_signals` and read by `child_handler`. -/
structure Globals where
  child_pid : Int
  deriving DecidableEq

/-- The relay handler disposition installed by `pass_signals`:
`SigHandler::Handler(child_handler)`. -/
def relayHandler : SigHandler := SigHandler.Handler HandlerFn.child_handler

/-- The six signals `set_handler` installs the handler for, in call order. -/
def setHandlerSignals : List Signal :=
  [ Signal.SIGTERM, Signal.SIGQUIT, Signal.SIGINT,
    Signal.SIGHUP, Signal.SIGUSR1, Signal.SIGUSR2 ]

/-- `set_handler` from `src/signals.rs`: build the action
`SigAction::new(handler, SaFlags::empty(), SigSet::all())` and perform
one `sigaction` call per signal of `setHandlerSignals`, each
`chain_err`-wrapped with the message "failed to sigaction". -/
def set_handler (o : Nat → Bool) (handler : SigHandler) : Run Unit :=
  let a := SigAction.new handler [] SigSet.all
  runSteps o { result := Except.ok (), trace := [] }
    (setHandlerSignals.map (fun s => (Event.sigactionCall s a, "failed to sigaction")))

/-- `pass_signals` from `src/signals.rs`: write `child_pid` into the
`CHILD_PID` relay state (recorded as the first trace event, before any
`sigaction` call), then run `set_handler` with the relay handler. -/
def pass_signals (o : Nat → Bool) (child_pid : Int) : Run Unit :=
  let r := set_handler o relayHandler
  { result := r.result, trace := Event.setChildPid child_pid :: r.trace }

/-- `child_handler` from `src/signals.rs`: the relay handler.  Convert
the raw signal number with `Signal::from_c_int(signo).unwrap()` (`none`
here models the unwrap panic), then `let _ = kill(CHILD_PID, sig)`:
the kill is attempted and its result discarded, so the handler returns
successfully whatever the oracle says about the kill. -/
def child_handler (g : Globals) (o : Nat → Bool) (signo : Int) : Option (Run Unit) :=
  match Signal.from_c_int signo with
  | none => none
  | some sig =>
      let r := osStep o { result := Except.ok (), trace := [] }
        (Event.killCall g.child_pid (some sig)) "kill failed"
      some { result := Except.ok (), trace := r.trace }

/-- `signal_children` from `src/signals.rs`: add `signal` to an empty
set, block that set on the calling thread, then `kill(0, signal)`
(process group 0, the caller's own group).  No unblock ever follows. -/
def signal_children (o : Nat → Bool) (signal : Signal) : Run Unit :=
  let s := SigSet.add SigSet.empty signal
  runSteps o { result := Except.ok (), trace := [] }
    [ (Event.threadBlock s, "thread_block error"),
      (Event.killCall 0 (some signal), "kill error") ]

/-- The step list of `raise_for_parent`: a disposition reset to
`SigDfl` only when the signal is neither KILL nor STOP, then the
unconditional unblock of the signal, then the raise. -/
def rfpSteps (signal : Signal) : List (Event × String) :=
  (if signal ≠ Signal.SIGKILL ∧ signal ≠ Signal.SIGSTOP then
     [ (Event.sigactionCall signal (SigAction.new SigHandler.SigDfl [] SigSet.all),
        "failed to sigaction") ]
   else []) ++
  [ (Event.threadUnblock (SigSet.add SigSet.empty signal), "failed to unblock signal"),
    (Event.raiseCall signal, "failed to raise signal " ++ signalName signal) ]

/-- `raise_for_parent` from `src/signals.rs`, as the `?`-chained
execution of its three (or, for KILL/STOP, two) steps. -/
def raise_for_parent (o : Nat → Bool) (signal : Signal) : Run Unit :=
  runSteps o { result := Except.ok (), trace := [] } (rfpSteps signal)

/-- `wait_for_signal` from `src/signals.rs`: block `SigSet::all()`,
wait for a pending signal, unblock the full set, and return the signal
the wait delivered.  Which signal the OS delivers is a parameter of the
model (`delivered`). -/
def wait_for_signal (o : Nat → Bool) (delivered : Signal) : Run Signal :=
  let r := runSteps o { result := Except.ok (), trace := [] }
    [ (Event.threadBlock SigSet.all, "thread_block error"),
      (Event.sigwait SigSet.all, "sigwait error"),
      (Event.threadUnblock SigSet.all, "thread_unblock error") ]
  { result := r.result.map (fun _ => delivered), trace := r.trace }

/-- Effect of one trace event on the calling thread's blocked-signal
mask (membership function): block unions the set in, unblock removes
it, every other event leaves the mask unchanged. -/
def applyEvent (m : Signal → Bool) : Event → (Signal → Bool)
  | Event.threadBlock s => fun x => m x || SigSet.has s x
  | Event.threadUnblock s => fun x => m x && !(SigSet.has s x)
  | _ => m

/-- The calling thread's mask after a trace, starting from mask `m`. -/
def maskAfter (t : List Event) (m : Signal → Bool) : Signal → Bool :=
  t.foldl applyEvent m

set_option maxRecDepth 10000

/-! Helper lemmas about the execution model and the catalog scan. -/

/-- Once a run has failed, later steps do nothing (`?` has returned). -/
theorem runSteps_frozen :
    ∀ (steps : List (Event × String)) (o : Nat → Bool) (r : Run Unit) (m : String),
      r.result = Except.error m → runSteps o r steps = r := by
  intro steps
  induction steps with
  | nil => intro o r m h; rfl
  | cons s rest ih =>
      intro o r m h
      have h1 : osStep o r s.1 s.2 = r := by
        unfold osStep
        rw [h]
      rw [runSteps, h1]
      exact ih o r m h

/-- A run's trace extends the starting trace by some initial segment of
the step list's events: a failing step cuts execution off right there. -/
theorem runSteps_take :
    ∀ (steps : List (Event × String)) (o : Nat → Bool) (r : Run Unit),
      ∃ j, (runSteps o r steps).trace = r.trace ++ (steps.map Prod.fst).take j := by
  intro steps
  induction steps with
  | nil => intro o r; exact ⟨0, by simp [runSteps]⟩
  | cons s rest ih =>
      intro o r
      rcases hr : r.result with m | u
      · refine ⟨0, ?_⟩
        have h1 : osStep o r s.1 s.2 = r := by unfold osStep; rw [hr]
        rw [runSteps, h1, runSteps_frozen rest o r m hr]
        simp
      · have h1 : osStep o r s.1 s.2 =
            { result := if o r.trace.length then Except.ok () else Except.error s.2,
              trace := r.trace ++ [s.1] } := by
          unfold osStep; rw [hr]
        rw [runSteps, h1]
        by_cases ho : o r.trace.length = true
        · obtain ⟨j, hj⟩ := ih o { result := Except.ok (), trace := r.trace ++ [s.1] }
          refine ⟨j + 1, ?_⟩
          simp only [ho, if_true] at *
          rw [hj]
          simp [List.take_succ_cons]
        · refine ⟨1, ?_⟩
          have hr2 : (Run.mk (α := Unit)
              (if o r.trace.length then Except.ok () else Except.error s.2)
              (r.trace ++ [s.1])).result = Except.error s.2 := by
            simp [ho]
          rw [runSteps_frozen rest o _ s.2 hr2]
          simp

/-- Under the all-success oracle a run from a clean state performs every
step, in order, and returns Ok. -/
theorem runSteps_allOk :
    ∀ (steps : List (Event × String)) (r : Run Unit), r.result = Except.ok () →
      (runSteps allOk r steps).result = Except.ok () ∧
      (runSteps allOk r steps).trace = r.trace ++ steps.map Prod.fst := by
  intro steps
  induction steps with
  | nil => intro r h; exact ⟨h, by simp [runSteps]⟩
  | cons s rest ih =>
      intro r h
      have h1 : osStep allOk r s.1 s.2 =
          { result := Except.ok (), trace := r.trace ++ [s.1] } := by
        unfold osStep; rw [h]; rfl
      rw [runSteps, h1]
      obtain ⟨ha, hb⟩ := ih { result := Except.ok (), trace := r.trace ++ [s.1] } rfl
      exact ⟨ha, by rw [hb]; simp⟩

/-- Every canonical signal is in the full set. -/
theorem mem_allSignals : ∀ x : Signal, x ∈ allSignals := by
  intro x
  cases x <;> decide

/-- Round trip: converting a signal's own number back yields the signal. -/
theorem from_c_int_toCInt : ∀ s : Signal, Signal.from_c_int (Signal.toCInt s) = some s := by
  intro s
  cases s <;> rfl

/-- Falling off the end of the catalog scan yields exactly the
`bail!`-formatted message, whatever the index or parsed number. -/
theorem toSignalGo_msg (tok : String) (num : Nat) :
    ∀ (l : List (List String × Signal)) (i : Nat) (msg : String),
      toSignalGo tok num i l = Except.error msg → msg = tok ++ " is not a valid signal" := by
  intro l
  induction l with
  | nil =>
      intro i msg h
      rw [toSignalGo] at h
      exact (Except.error.inj h).symm
  | cons p rest ih =>
      intro i msg h
      rw [toSignalGo] at h
      by_cases hc : tok ∈ p.1 ∨ i + 1 = num
      · rw [if_pos hc] at h; cases h
      · rw [if_neg hc] at h; exact ih (i + 1) msg h

/-- The catalog scan starting at index `i` errors exactly when the token
is no entry's accepted name and the parsed number hits no 1-based
position of the remaining window. -/
theorem toSignalGo_error_iff (tok : String) (num : Nat) :
    ∀ (l : List (List String × Signal)) (i : Nat),
      (∃ msg, toSignalGo tok num i l = Except.error msg) ↔
        ((∀ p ∈ l, tok ∉ p.1) ∧ ¬(i < num ∧ num ≤ i + l.length)) := by
  intro l
  induction l with
  | nil =>
      intro i
      simp [toSignalGo]
  | cons p rest ih =>
      intro i
      rw [toSignalGo]
      by_cases hc : tok ∈ p.1 ∨ i + 1 = num
      · rw [if_pos hc]
        constructor
        · rintro ⟨m, hm⟩; cases hm
        · rintro ⟨h1, h2⟩
          rcases hc with hn | he
          · exact absurd hn (h1 p (List.mem_cons_self p rest))
          · exfalso
            apply h2
            simp only [List.length_cons]
            omega
      · rw [if_neg hc]
        rw [ih (i + 1)]
        push_neg at hc
        obtain ⟨hc1, hc2⟩ := hc
        constructor
        · rintro ⟨h1, h2⟩
          refine ⟨?_, ?_⟩
          · intro q hq
            rcases List.mem_cons.mp hq with rfl | hq2
            · exact hc1
            · exact h1 q hq2
          · intro hw
            apply h2
            simp only [List.length_cons] at hw
            omega
        · rintro ⟨h1, h2⟩
          refine ⟨fun q hq => h1 q (List.mem_cons_of_mem p hq), ?_⟩
          intro hw
          apply h2
          simp only [List.length_cons]
          omega

/-- `to_signal` errors exactly when the token is no cataloged name and
does not parse (Rust `usize` semantics) to a 1-based catalog position. -/
theorem to_signal_error_iff (s : String) :
    (∃ msg, to_signal s = Except.error msg) ↔
      ((∀ p ∈ SIGNALS, s ∉ p.1) ∧
       ¬ ∃ n, parse_usize s = some n ∧ 1 ≤ n ∧ n ≤ SIGNALS.length) := by
  rcases hp : parse_usize s with _ | n
  · simp only [to_signal, hp]
    rw [toSignalGo_error_iff s (SIGNALS.length + 1) SIGNALS 0]
    constructor
    · rintro ⟨h1, _⟩
      refine ⟨h1, ?_⟩
      rintro ⟨n, hn, _⟩
      cases hn
    · rintro ⟨h1, _⟩
      refine ⟨h1, ?_⟩
      omega
  · simp only [to_signal, hp]
    rw [toSignalGo_error_iff s n SIGNALS 0]
    constructor
    · rintro ⟨h1, h2⟩
      refine ⟨h1, ?_⟩
      rintro ⟨k, hk, hk1, hk2⟩
      have he : n = k := Option.some.inj hk
      subst he
      exact h2 (by omega)
    · rintro ⟨h1, h2⟩
      refine ⟨h1, ?_⟩
      intro hw
      exact h2 ⟨n, rfl, by omega⟩

/-! Claim theorems. -/

/-- Claim C1: `pass_signals(child_pid)` first writes `child_pid` into the
relay state and only then installs the relay handler (`child_handler`),
for exactly the six signals TERM, QUIT, INT, HUP, USR1, USR2, in that
order, each with a sigaction whose flags are empty (in particular no
`SA_RESTART`, so interrupted syscalls are not auto-restarted) and whose
handler mask blocks all signals while the handler runs. -/
theorem c1_pass_signals_installs_relay (pid : Int) :
    (pass_signals allOk pid).result = Except.ok () ∧
    (pass_signals allOk pid).trace =
      [ Event.setChildPid pid,
        Event.sigactionCall Signal.SIGTERM (SigAction.new relayHandler [] SigSet.all),
        Event.sigactionCall Signal.SIGQUIT (SigAction.new relayHandler [] SigSet.all),
        Event.sigactionCall Signal.SIGINT (SigAction.new relayHandler [] SigSet.all),
        Event.sigactionCall Signal.SIGHUP (SigAction.new relayHandler [] SigSet.all),
        Event.sigactionCall Signal.SIGUSR1 (SigAction.new relayHandler [] SigSet.all),
        Event.sigactionCall Signal.SIGUSR2 (SigAction.new relayHandler [] SigSet.all) ] ∧
    relayHandler = SigHandler.Handler HandlerFn.child_handler ∧
    SaFlag.SA_RESTART ∉ (SigAction.new relayHandler [] SigSet.all).flags ∧
    (∀ x : Signal, SigSet.has (SigAction.new relayHandler [] SigSet.all).mask x = true) := by
  refine ⟨rfl, rfl, rfl, by simp [SigAction.new], fun x => ?_⟩
  simp [SigAction.new, SigSet.has, SigSet.all, mem_allSignals x]

/-- Claim C2: for every signal number the relay handler is invoked with
that converts to a canonical signal, `child_handler` forwards exactly
that signal to the child pid stored in the relay state, and the result
of the forwarding kill is discarded: the handler returns successfully
under every oracle, including ones where the kill fails. -/
theorem c2_child_handler_forwards (g : Globals) (o : Nat → Bool) (signo : Int) (sig : Signal)
    (h : Signal.from_c_int signo = some sig) :
    child_handler g o signo =
      some { result := Except.ok (), trace := [Event.killCall g.child_pid (some sig)] } := by
  simp only [child_handler, h]
  rfl

/-- Witness for C2: signal number 15 (SIGTERM) is forwarded to child pid
42 and the handler succeeds even under the all-failure oracle. -/
theorem c2_witness :
    child_handler ⟨42⟩ (fun _ => false) 15 =
      some { result := Except.ok (), trace := [Event.killCall 42 (some Signal.SIGTERM)] } :=
  c2_child_handler_forwards ⟨42⟩ (fun _ => false) 15 Signal.SIGTERM (by decide)

/-- Counterexample to C3 as stated: the error returned by `set_handler`
does not identify which signal failed to install.  A failure of the
first `sigaction` call (installing TERM) and a failure of the second
(installing QUIT) are genuinely different runs — their traces differ —
yet both surface the identical error "failed to sigaction", so the
returned error cannot identify the failing signal. -/
theorem c3_counterexample :
    (set_handler (failAt 0) relayHandler).result = Except.error "failed to sigaction" ∧
    (set_handler (failAt 1) relayHandler).result = Except.error "failed to sigaction" ∧
    (set_handler (failAt 0) relayHandler).trace ≠ (set_handler (failAt 1) relayHandler).trace ∧
    (set_handler (failAt 0) relayHandler).result = (set_handler (failAt 1) relayHandler).result := by
  decide

/-- Claim C3 as amended: if the k-th of the six disposition
installations fails, the whole operation aborts at that point — the
trace contains exactly the first k+1 sigaction calls, so earlier
installations are left in place with no rollback — and the surfaced
error is the fixed message "failed to sigaction", which does not name
the failing signal; moreover under any oracle the call sequence is an
initial segment of the six installations. -/
theorem c3_amended_abort_no_rollback :
    (∀ k, k < 6 →
      (set_handler (failAt k) relayHandler).result = Except.error "failed to sigaction" ∧
      (set_handler (failAt k) relayHandler).trace =
        (setHandlerSignals.map
          (fun s => Event.sigactionCall s (SigAction.new relayHandler [] SigSet.all))).take (k + 1)) ∧
    (∀ o : Nat → Bool, ∃ j, (set_handler o relayHandler).trace =
      (setHandlerSignals.map
        (fun s => Event.sigactionCall s (SigAction.new relayHandler [] SigSet.all))).take j) := by
  refine ⟨by decide, fun o => ?_⟩
  obtain ⟨j, hj⟩ := runSteps_take
    (setHandlerSignals.map
      (fun s => (Event.sigactionCall s (SigAction.new relayHandler [] SigSet.all),
                 "failed to sigaction")))
    o { result := Except.ok (), trace := [] }
  exact ⟨j, hj⟩

/-- Witness for the amended C3: when the second installation (QUIT)
fails, the run errors with the fixed message and exactly the first two
sigaction calls were made. -/
theorem c3_witness :
    (set_handler (failAt 1) relayHandler).result = Except.error "failed to sigaction" ∧
    (set_handler (failAt 1) relayHandler).trace =
      (setHandlerSignals.map
        (fun s => Event.sigactionCall s (SigAction.new relayHandler [] SigSet.all))).take 2 :=
  c3_amended_abort_no_rollback.1 1 (by decide)

/-- Claim C4: for every catalog entry and every one of its accepted name
strings, `to_signal` returns Ok of that entry's canonical signal; in
particular "HUP" and "SIGHUP" both resolve to SIGHUP. -/
theorem c4_names_resolve :
    (∀ p ∈ SIGNALS, ∀ nm ∈ p.1, to_signal nm = Except.ok p.2) ∧
    to_signal "HUP" = Except.ok Signal.SIGHUP ∧
    to_signal "SIGHUP" = Except.ok Signal.SIGHUP :=
  ⟨by decide, by decide, by decide⟩

/-- Witness for C4: the alias "IOT" of the ABRT entry resolves to
SIGABRT. -/
theorem c4_witness : to_signal "IOT" = Except.ok Signal.SIGABRT :=
  c4_names_resolve.1 ( [ "ABRT", "IOT", "SIGABRT", "SIGIOT" ], Signal.SIGABRT )
    (by decide) "IOT" (by decide)

/-- Claim C5: for every N from 1 to the number of catalog entries, the
decimal string for N resolves to the Nth entry's canonical signal
(1-indexed); in particular "1" resolves like "HUP" and "6" like "ABRT",
"SIGABRT" and "IOT". -/
theorem c5_numeric_resolution :
    (∀ (n : Nat) (h : n < SIGNALS.length),
       to_signal (toString (n + 1)) = Except.ok (SIGNALS.get ⟨n, h⟩).2) ∧
    to_signal "1" = to_signal "HUP" ∧
    to_signal "6" = to_signal "ABRT" ∧
    to_signal "6" = to_signal "SIGABRT" ∧
    to_signal "6" = to_signal "IOT" :=
  ⟨by decide, by decide, by decide, by decide, by decide⟩

/-- Witness for C5: positions 1 and 6 resolve to the first and sixth
catalog entries (SIGHUP and SIGABRT). -/
theorem c5_witness :
    to_signal (toString (0 + 1)) = Except.ok (SIGNALS.get ⟨0, by decide⟩).2 ∧
    to_signal (toString (5 + 1)) = Except.ok (SIGNALS.get ⟨5, by decide⟩).2 :=
  ⟨c5_numeric_resolution.1 0 (by decide), c5_numeric_resolution.1 5 (by decide)⟩

/-- Claim C6: `to_signal` errors exactly when the token is neither an
accepted name of a catalog entry nor a non-negative decimal integer
(Rust `usize` parse) equal to the 1-based position of some entry; every
error message includes the offending token (it is the token followed by
" is not a valid signal"), and in particular "34" and "SIGTESTP" both
error. -/
theorem c6_error_characterization :
    (∀ s : String,
       (∃ msg, to_signal s = Except.error msg) ↔
         ((∀ p ∈ SIGNALS, s ∉ p.1) ∧
          ¬ ∃ n, parse_usize s = some n ∧ 1 ≤ n ∧ n ≤ SIGNALS.length)) ∧
    (∀ s msg, to_signal s = Except.error msg → msg = s ++ " is not a valid signal") ∧
    to_signal "34" = Except.error ("34" ++ " is not a valid signal") ∧
    to_signal "SIGTESTP" = Except.error ("SIGTESTP" ++ " is not a valid signal") := by
  refine ⟨to_signal_error_iff, ?_, by decide, by decide⟩
  intro s msg h
  simp only [to_signal] at h
  exact toSignalGo_msg s _ SIGNALS 0 msg h

/-- Witness for C6: "34" errors and its message carries the token. -/
theorem c6_witness :
    ∃ msg, to_signal "34" = Except.error msg ∧ msg = "34" ++ " is not a valid signal" := by
  have h : to_signal "34" = Except.error "34 is not a valid signal" := by decide
  exact ⟨_, h, c6_error_characterization.2.1 "34" _ h⟩

/-- Claim C7: `raise_for_parent(signal)` performs, in order, the
disposition reset to default (only when the signal is neither KILL nor
STOP — for those two it is skipped), then the unconditional unblock of
the signal, then the raise; and under every oracle the calls made are
an initial segment of that sequence, so execution never continues past
the first failing step. -/
theorem c7_raise_for_parent_order (sig : Signal) :
    (raise_for_parent allOk sig).result = Except.ok () ∧
    (raise_for_parent allOk sig).trace =
      (if sig ≠ Signal.SIGKILL ∧ sig ≠ Signal.SIGSTOP then
         [Event.sigactionCall sig (SigAction.new SigHandler.SigDfl [] SigSet.all)]
       else []) ++
      [ Event.threadUnblock (SigSet.add SigSet.empty sig), Event.raiseCall sig ] ∧
    (∀ o : Nat → Bool, ∃ rest : List Event,
       (raise_for_parent o sig).trace ++ rest = (raise_for_parent allOk sig).trace) := by
  have hmap : (rfpSteps sig).map Prod.fst =
      (if sig ≠ Signal.SIGKILL ∧ sig ≠ Signal.SIGSTOP then
         [Event.sigactionCall sig (SigAction.new SigHandler.SigDfl [] SigSet.all)]
       else []) ++
      [ Event.threadUnblock (SigSet.add SigSet.empty sig), Event.raiseCall sig ] := by
    by_cases hk : sig ≠ Signal.SIGKILL ∧ sig ≠ Signal.SIGSTOP
    · simp [rfpSteps, hk]
    · simp [rfpSteps, hk]
  obtain ⟨ha, hb⟩ := runSteps_allOk (rfpSteps sig) { result := Except.ok (), trace := [] } rfl
  simp only [raise_for_parent]
  refine ⟨ha, ?_, ?_⟩
  · rw [hb, List.nil_append, hmap]
  · intro o
    obtain ⟨j, hj⟩ := runSteps_take (rfpSteps sig) o { result := Except.ok (), trace := [] }
    refine ⟨((rfpSteps sig).map Prod.fst).drop j, ?_⟩
    rw [hj, hb]
    simp [List.take_append_drop]

/-- Claim C8: `signal_children(signal)` blocks the signal on the calling
thread first and only then kills process group 0; under no oracle does
its trace contain any unblock, and on success the mask afterwards is
the starting mask with exactly the signal added — the signal is left
blocked. -/
theorem c8_signal_children_blocks_first (sig : Signal) (m : Signal → Bool) :
    (signal_children allOk sig).result = Except.ok () ∧
    (signal_children allOk sig).trace =
      [ Event.threadBlock (SigSet.add SigSet.empty sig),
        Event.killCall 0 (some sig) ] ∧
    (∀ o : Nat → Bool, ∀ e ∈ (signal_children o sig).trace,
       ∀ ss : SigSet, e ≠ Event.threadUnblock ss) ∧
    (∀ x : Signal,
       maskAfter (signal_children allOk sig).trace m x = true ↔ (m x = true ∨ x = sig)) := by
  refine ⟨rfl, rfl, ?_, fun x => ?_⟩
  · intro o e he ss
    simp only [signal_children] at he
    obtain ⟨j, hj⟩ := runSteps_take
      [ (Event.threadBlock (SigSet.add SigSet.empty sig), "thread_block error"),
        (Event.killCall 0 (some sig), "kill error") ]
      o { result := Except.ok (), trace := [] }
    rw [hj] at he
    simp only [List.nil_append, List.map_cons, List.map_nil] at he
    have he2 := List.take_subset j _ he
    rcases List.mem_cons.mp he2 with rfl | he3
    · intro hcon; cases hcon
    · rcases List.mem_cons.mp he3 with rfl | he4
      · intro hcon; cases hcon
      · cases he4
  · show maskAfter
      [ Event.threadBlock (SigSet.add SigSet.empty sig), Event.killCall 0 (some sig) ] m x
        = true ↔ (m x = true ∨ x = sig)
    simp [maskAfter, applyEvent, SigSet.has, SigSet.add, SigSet.empty]

/-- Witness for C8: the first trace event of a concrete run is a block,
not an unblock. -/
theorem c8_witness :
    Event.threadBlock (SigSet.add SigSet.empty Signal.SIGTERM) ≠
      Event.threadUnblock SigSet.all :=
  (c8_signal_children_blocks_first Signal.SIGTERM (fun _ => false)).2.2.1 allOk
    (Event.threadBlock (SigSet.add SigSet.empty Signal.SIGTERM)) (by decide) SigSet.all

/-- Claim C9: `wait_for_signal` blocks the full signal set, waits for a
pending signal, unblocks the full set again, and returns Ok of the
delivered canonical signal; after a successful call every signal is
unblocked in the resulting mask, whatever it was before. -/
theorem c9_wait_for_signal_scoped (sig : Signal) (m : Signal → Bool) :
    (wait_for_signal allOk sig).result = Except.ok sig ∧
    (wait_for_signal allOk sig).trace =
      [ Event.threadBlock SigSet.all, Event.sigwait SigSet.all,
        Event.threadUnblock SigSet.all ] ∧
    (∀ x : Signal, maskAfter (wait_for_signal allOk sig).trace m x = false) := by
  refine ⟨rfl, rfl, fun x => ?_⟩
  have hx : x ∈ allSignals := mem_allSignals x
  show maskAfter
    [ Event.threadBlock SigSet.all, Event.sigwait SigSet.all,
      Event.threadUnblock SigSet.all ] m x = false
  simp [maskAfter, applyEvent, SigSet.has, SigSet.all, hx]

/-- Claim C10 (implicit): `child_handler` unwraps
`Signal::from_c_int(signo)`, so it panics (modelled as `none`) exactly
for signal numbers that are no valid canonical signal; for each of the
six signals `pass_signals` installs it for — whose installation trace
is restated here — the conversion succeeds, so the panic branch is
unreachable under that precondition. -/
theorem c10_child_handler_panic_range :
    (∀ (g : Globals) (o : Nat → Bool) (signo : Int),
       Signal.from_c_int signo = none → child_handler g o signo = none) ∧
    (∀ sig ∈ setHandlerSignals, ∀ (g : Globals) (o : Nat → Bool),
       child_handler g o (Signal.toCInt sig) ≠ none) ∧
    (∀ pid : Int, (pass_signals allOk pid).trace =
       Event.setChildPid pid ::
         setHandlerSignals.map
           (fun s => Event.sigactionCall s (SigAction.new relayHandler [] SigSet.all))) := by
  refine ⟨?_, ?_, fun pid => rfl⟩
  · intro g o signo h
    simp only [child_handler, h]
  · intro sig hs g o
    simp only [child_handler, from_c_int_toCInt sig]
    simp

/-- Witness for C10: number 99 is no signal and makes the handler panic,
while SIGTERM's own number does not. -/
theorem c10_witness :
    child_handler ⟨1⟩ allOk 99 = none ∧
    child_handler ⟨1⟩ allOk (Signal.toCInt Signal.SIGTERM) ≠ none :=
  ⟨c10_child_handler_panic_range.1 ⟨1⟩ allOk 99 (by decide),
   c10_child_handler_panic_range.2.1 Signal.SIGTERM (by decide) ⟨1⟩ allOk⟩
